import Mathlib

/-!
Shallow embedding of the tutorial notebook `adr-complete-serial.ipynb`.

The notebook configures an external finite-element framework to solve a 2-D
linear advection-diffusion-reaction equation.  We embed the parts the claims
are about: the `LADR` transport-coefficient class and its `evaluate` method,
the physics configuration (`p.L`, `p.T`, `p.coefficients`, the Dirichlet
boundary-condition function `getDBC`, the initial-condition class `IC`), the
numerics configuration (`n.tnList`), the operator-splitting configuration
(`so.tnList`), the notebook's cell sequence (one external solve call), and
the assertion on the returned failure flag.  Real-number literals of the
source are embedded as exact rationals; per-quadrature-point coefficient
arrays are modelled by a record holding the value at one point.
-/

/-- The coefficient class `LADR(TransportCoefficients.TC_base)` of the linear
advection-diffusion-reaction equation.  Fields are the constructor arguments
`M`, `A`, `B`, `C` of `LADR.__init__`. -/
structure LADR where
  M : ℚ
  A : Fin 2 → Fin 2 → ℚ
  B : Fin 2 → ℚ
  C : ℚ

/-- One point of the coefficient store `c` passed to `LADR.evaluate`: the
solution value `u = c[('u',0)]` together with the coefficient entries the
method writes.  `f0`, `f1` are the two space components of `c[('f',0)]`,
`a00 … a11` the four entries of the 2×2 tensor `c[('a',0,0)]`, and `df0`,
`df1` those of `c[('df',0,0)]`. -/
structure CStore where
  u : ℚ
  m : ℚ
  dm : ℚ
  f0 : ℚ
  f1 : ℚ
  df0 : ℚ
  df1 : ℚ
  a00 : ℚ
  a01 : ℚ
  a10 : ℚ
  a11 : ℚ
  r : ℚ
  dr : ℚ

/-- The method `LADR.evaluate(self, t, c)`: it assigns
`c[('m',0)] = M*u`, `c[('dm',0,0)] = M`, `c[('f',0)][...,k] = B[k]*u`,
`c[('df',0,0)][...,k] = B[k]`, `c[('a',0,0)][...,0,0] = A[0][0]`,
`c[('a',0,0)][...,1,1] = A[1][1]`, `c[('r',0)] = C*u`, `c[('dr',0,0)] = C`.
Entries the source does not assign (the off-diagonal entries of `a`) keep
their previous value. -/
def LADR.evaluate (self : LADR) (t : ℚ) (c : CStore) : CStore :=
  { c with
    m := self.M * c.u
    dm := self.M
    f0 := self.B 0 * c.u
    f1 := self.B 1 * c.u
    df0 := self.B 0
    df1 := self.B 1
    a00 := self.A 0 0
    a11 := self.A 1 1
    r := self.C * c.u
    dr := self.C }

namespace p

/-- `p.nd = 2` from the physics cell. -/
def nd : ℕ := 2

/-- `p.L = (1.0, 1.0)` from the physics cell. -/
def L : ℚ × ℚ := (1, 1)

/-- `p.T = 1.0` from the physics cell. -/
def T : ℚ := 1

/-- `p.coefficients = LADR(M=1.0, A=[[0.001,0.0],[0.0,0.001]], B=[2.0,1.0],
C=0.0)` from the physics cell. -/
def coefficients : LADR :=
  { M := 1
    A := ![![1/1000, 0], ![0, 1/1000]]
    B := ![2, 1]
    C := 0 }

end p

/-- The Dirichlet boundary-condition function `getDBC(x, flag)` from the
physics cell: the constant-one function on the inflow edges `x[0] == 0.0` or
`x[1] == 0.0`, otherwise the constant-zero function on the outflow edges
`x[0] == p.L[0]` or `x[1] == p.L[1]`, otherwise `None`. -/
def getDBC (x : ℚ × ℚ) (flag : ℤ) : Option (ℚ × ℚ → ℚ → ℚ) :=
  if x.1 = 0 ∨ x.2 = 0 then
    some (fun _ _ => 1)
  else if x.1 = p.L.1 ∨ x.2 = p.L.2 then
    some (fun _ _ => 0)
  else
    none

/-- The initial-condition class `IC` from the physics cell; its `__init__`
stores nothing. -/
structure IC

/-- The method `IC.uOfXT(self, x, t)`: returns `1.0` when
`x[0] <= 0.0 or x[1] <= 0.0`, else `0.0`. -/
def IC.uOfXT (self : IC) (x : ℚ × ℚ) (t : ℚ) : ℚ :=
  if x.1 ≤ 0 ∨ x.2 ≤ 0 then 1 else 0

namespace n

/-- `n.tnList = [float(i)/40.0 for i in range(11)]` from the numerics cell. -/
def tnList : List ℚ := (List.range 11).map fun i : ℕ => (i : ℚ) / 40

end n

namespace so

/-- `so.tnList = n.tnList` from the operator-splitting cell. -/
def tnList : List ℚ := n.tnList

end so

/-- The kinds of cells the notebook executes, in document order. -/
inductive Cell
  | markdown
  | importsCell
  | defineLADR
  | physicsCell
  | numericsCell
  | splittingCell
  | initSolutionCell
  | solveCell (name : String)
  | plotCell
  | shellCell
deriving DecidableEq

/-- The notebook as a step sequence: its cells in execution order.  The only
cell that invokes the external solve entry point is
`failed = ns.calculateSolution('ladr_run1')`. -/
def notebookCells : List Cell :=
  [Cell.markdown, Cell.importsCell, Cell.markdown, Cell.markdown,
   Cell.defineLADR, Cell.markdown, Cell.physicsCell, Cell.markdown,
   Cell.numericsCell, Cell.markdown, Cell.splittingCell, Cell.markdown,
   Cell.initSolutionCell, Cell.markdown, Cell.solveCell "ladr_run1",
   Cell.plotCell, Cell.markdown, Cell.shellCell]

/-- Names passed to `ns.calculateSolution` by a cell list, in order. -/
def solveCalls (cells : List Cell) : List String :=
  cells.filterMap fun c =>
    match c with
    | Cell.solveCell name => some name
    | _ => none

/-- The solve cell `failed = ns.calculateSolution('ladr_run1');
assert(not failed)`: a truthy failure flag raises an assertion error, a
falsy flag lets execution continue with the flag's value. -/
def runSolveAndCheck (failed : Bool) : Except String Bool :=
  if failed then Except.error "AssertionError" else Except.ok failed

/-- A coefficient object whose `A` has nonzero off-diagonal entries,
exercising the diffusion assignment of `LADR.evaluate`. -/
def offDiagCoefficients : LADR :=
  { M := 1
    A := ![![1, 2], ![3, 4]]
    B := ![2, 1]
    C := 0 }

/-- A coefficient store with sentinel values in the off-diagonal diffusion
slots, to observe which entries `LADR.evaluate` writes. -/
def sentinelStore : CStore :=
  { u := 0, m := 0, dm := 0, f0 := 0, f1 := 0, df0 := 0, df1 := 0,
    a00 := 0, a01 := 5, a10 := 6, a11 := 0, r := 0, dr := 0 }

/-- C1: for every time `t` and coefficient store `c` carrying solution value
`u`, `LADR.evaluate` writes the mass `m = M*u` with derivative `dm = M`, the
advection `f = (B[0]*u, B[1]*u)` with derivative `df = (B[0], B[1])`, and the
reaction `r = C*u` with derivative `dr = C`, where `M`, `B`, `C` are the
constructor values. -/
theorem C1_evaluate_linear (coef : LADR) (t : ℚ) (c : CStore) :
    (coef.evaluate t c).m = coef.M * c.u ∧
    (coef.evaluate t c).dm = coef.M ∧
    (coef.evaluate t c).f0 = coef.B 0 * c.u ∧
    (coef.evaluate t c).f1 = coef.B 1 * c.u ∧
    (coef.evaluate t c).df0 = coef.B 0 ∧
    (coef.evaluate t c).df1 = coef.B 1 ∧
    (coef.evaluate t c).r = coef.C * c.u ∧
    (coef.evaluate t c).dr = coef.C :=
  ⟨rfl, rfl, rfl, rfl, rfl, rfl, rfl, rfl⟩

/-- C2 counterexample: the claim that `LADR.evaluate` writes all four entries
of the diffusion tensor fails at a matrix `A` with nonzero off-diagonal
entries: the entry `a[0][1]` keeps its previous value `5` instead of
becoming `A[0][1] = 2`. -/
theorem C2_counterexample :
    ¬ ((offDiagCoefficients.evaluate 0 sentinelStore).a01 =
         offDiagCoefficients.A 0 1 ∧
       (offDiagCoefficients.evaluate 0 sentinelStore).a10 =
         offDiagCoefficients.A 1 0) := by
  intro h
  have h1 : (5 : ℚ) = 2 := h.1
  norm_num at h1

/-- C2 amended: `LADR.evaluate` sets only the diagonal entries of the
diffusion tensor, `a[0][0] = A[0][0]` and `a[1][1] = A[1][1]`, independent of
`u` and `t`; the off-diagonal entries `a[0][1]`, `a[1][0]` are left
unchanged. -/
theorem C2_evaluate_diffusion_diagonal (coef : LADR) (t : ℚ) (c : CStore) :
    (coef.evaluate t c).a00 = coef.A 0 0 ∧
    (coef.evaluate t c).a11 = coef.A 1 1 ∧
    (coef.evaluate t c).a01 = c.a01 ∧
    (coef.evaluate t c).a10 = c.a10 :=
  ⟨rfl, rfl, rfl, rfl⟩

/-- C3: the notebook's only error handling is the assertion on the failure
flag returned by `ns.calculateSolution`: a truthy flag raises an assertion
error, a falsy flag lets execution continue, and nothing else inspects the
result. -/
theorem C3_assertion_only :
    runSolveAndCheck true = Except.error "AssertionError" ∧
    runSolveAndCheck false = Except.ok false ∧
    ∀ failed : Bool, runSolveAndCheck failed =
      if failed then Except.error "AssertionError" else Except.ok failed :=
  ⟨rfl, rfl, fun _ => rfl⟩

/-- C4: `getDBC` returns the constant-one function when `x[0] = 0` or
`x[1] = 0` (so the inflow value wins at corners), otherwise the constant-zero
function when `x[0] = L[0]` or `x[1] = L[1]` with `L = (1, 1)`, otherwise
`None`; the flag argument never affects the result. -/
theorem C4_getDBC_cases (x : ℚ × ℚ) (flag : ℤ) :
    p.L = (1, 1) ∧
    ((x.1 = 0 ∨ x.2 = 0) → getDBC x flag = some fun _ _ => 1) ∧
    (¬(x.1 = 0 ∨ x.2 = 0) → (x.1 = p.L.1 ∨ x.2 = p.L.2) →
      getDBC x flag = some fun _ _ => 0) ∧
    (¬(x.1 = 0 ∨ x.2 = 0) → ¬(x.1 = p.L.1 ∨ x.2 = p.L.2) →
      getDBC x flag = none) ∧
    ∀ flag2 : ℤ, getDBC x flag = getDBC x flag2 := by
  unfold getDBC
  exact ⟨rfl, fun h => if_pos h,
    fun h1 h2 => by rw [if_neg h1, if_pos h2],
    fun h1 h2 => by rw [if_neg h1, if_neg h2],
    fun flag2 => rfl⟩

/-- C4 witness: at the corner `(0, 1)` both conditions hold and the inflow
value `1` wins; at the outflow point `(1/2, 1)` the constant-zero function is
returned. -/
theorem C4_getDBC_cases_witness :
    getDBC (0, 1) 7 = some (fun _ _ => 1) ∧
    getDBC ((1 : ℚ)/2, 1) 7 = some (fun _ _ => 0) :=
  ⟨(C4_getDBC_cases (0, 1) 7).2.1 (Or.inl rfl),
   (C4_getDBC_cases ((1 : ℚ)/2, 1) 7).2.2.1 (by norm_num)
     (Or.inr (by norm_num [p.L]))⟩

/-- C5: `IC.uOfXT` returns `1` when `x[0] ≤ 0` or `x[1] ≤ 0` and `0`
otherwise, independent of `t`. -/
theorem C5_uOfXT_cases (ic : IC) (x : ℚ × ℚ) (t : ℚ) :
    ((x.1 ≤ 0 ∨ x.2 ≤ 0) → ic.uOfXT x t = 1) ∧
    (¬(x.1 ≤ 0 ∨ x.2 ≤ 0) → ic.uOfXT x t = 0) ∧
    ∀ t2 : ℚ, ic.uOfXT x t = ic.uOfXT x t2 := by
  unfold IC.uOfXT
  exact ⟨fun h => if_pos h, fun h => if_neg h, fun t2 => rfl⟩

/-- C5 witness: at `x = (-1, 1)` the first branch applies and the value is
`1`, at `x = (1/2, 1)` the second branch gives `0`, at any two times. -/
theorem C5_uOfXT_cases_witness :
    IC.uOfXT ⟨⟩ (-1, 1) 3 = 1 ∧ IC.uOfXT ⟨⟩ ((1 : ℚ)/2, 1) 3 = 0 :=
  ⟨(C5_uOfXT_cases ⟨⟩ (-1, 1) 3).1 (Or.inl (by norm_num)),
   (C5_uOfXT_cases ⟨⟩ ((1 : ℚ)/2, 1) 3).2.1 (by norm_num)⟩

/-- C6: the notebook performs exactly one call to `calculateSolution` over
its whole cell sequence, with the name `ladr_run1`. -/
theorem C6_single_solve_call :
    solveCalls notebookCells = ["ladr_run1"] ∧
    (solveCalls notebookCells).length = 1 :=
  ⟨rfl, rfl⟩

/-- The output-time list written out entry by entry. -/
lemma tnList_eq_explicit :
    n.tnList = [0, 1/40, 1/20, 3/40, 1/10, 1/8, 3/20, 7/40, 1/5, 9/40, 1/4] := by
  norm_num [n.tnList, List.range_succ]

/-- C7: `n.tnList` has exactly 11 entries, its `i`-th entry is `i/40` (so it
starts at `0`, is strictly increasing, and ends at `0.25`), and
`so.tnList` is the same list. -/
theorem C7_tnList :
    n.tnList.length = 11 ∧
    (∀ i : ℕ, n.tnList[i]? =
      if i < 11 then some ((i : ℚ) / 40) else none) ∧
    List.Pairwise (fun a b => a < b) n.tnList ∧
    n.tnList.head? = some 0 ∧
    n.tnList.getLast? = some (1/4) ∧
    so.tnList = n.tnList := by
  have hlen : n.tnList.length = 11 := by
    rw [tnList_eq_explicit]
    rfl
  refine ⟨hlen, ?_, ?_, ?_, ?_, rfl⟩
  · intro i
    by_cases h : i < 11
    · rw [if_pos h]
      show ((List.range 11).map fun j : ℕ => (j : ℚ) / 40)[i]? =
        some ((i : ℚ) / 40)
      rw [List.getElem?_map, List.getElem?_range h]
      rfl
    · rw [if_neg h]
      apply List.getElem?_eq_none
      rw [hlen]
      omega
  · rw [tnList_eq_explicit]
    norm_num [List.pairwise_cons]
  · rw [tnList_eq_explicit]
    rfl
  · rw [tnList_eq_explicit]
    rfl

/-- C8: the coefficients written by `LADR.evaluate` are linear in `u` with
the reported derivatives as exact slopes: differences of `m`, `f`, `r`
between any two stores equal `dm`, `df`, `dr` times the difference of the
solution values, and at `u = 0` the values `m`, `f`, `r` vanish. -/
theorem C8_evaluate_derivative_consistency (coef : LADR) (t : ℚ)
    (c1 c2 : CStore) :
    (coef.evaluate t c1).m - (coef.evaluate t c2).m =
      (coef.evaluate t c1).dm * (c1.u - c2.u) ∧
    (coef.evaluate t c1).f0 - (coef.evaluate t c2).f0 =
      (coef.evaluate t c1).df0 * (c1.u - c2.u) ∧
    (coef.evaluate t c1).f1 - (coef.evaluate t c2).f1 =
      (coef.evaluate t c1).df1 * (c1.u - c2.u) ∧
    (coef.evaluate t c1).r - (coef.evaluate t c2).r =
      (coef.evaluate t c1).dr * (c1.u - c2.u) ∧
    (coef.evaluate t { c1 with u := 0 }).m = 0 ∧
    (coef.evaluate t { c1 with u := 0 }).f0 = 0 ∧
    (coef.evaluate t { c1 with u := 0 }).f1 = 0 ∧
    (coef.evaluate t { c1 with u := 0 }).r = 0 := by
  simp only [LADR.evaluate]
  exact ⟨by ring, by ring, by ring, by ring, by ring, by ring, by ring,
    by ring⟩

/-- C9: wherever `getDBC` imposes a Dirichlet value on the boundary of the
unit square, that value at time `0` agrees with the initial condition
`IC().uOfXT` at the same point. -/
theorem C9_ic_bc_compatibility (x : ℚ × ℚ) (flag : ℤ)
    (g : ℚ × ℚ → ℚ → ℚ)
    (hx1 : 0 ≤ x.1) (hx2 : x.1 ≤ 1) (hy1 : 0 ≤ x.2) (hy2 : x.2 ≤ 1)
    (hbd : x.1 = 0 ∨ x.1 = 1 ∨ x.2 = 0 ∨ x.2 = 1)
    (hg : getDBC x flag = some g) :
    g x 0 = IC.uOfXT ⟨⟩ x 0 := by
  unfold getDBC at hg
  by_cases h1 : x.1 = 0 ∨ x.2 = 0
  · rw [if_pos h1] at hg
    have hcond : x.1 ≤ 0 ∨ x.2 ≤ 0 := by
      rcases h1 with h | h
      · exact Or.inl (le_of_eq h)
      · exact Or.inr (le_of_eq h)
    have hic : IC.uOfXT ⟨⟩ x 0 = 1 := by
      unfold IC.uOfXT
      rw [if_pos hcond]
    rw [hic, ← Option.some.inj hg]
  · rw [if_neg h1] at hg
    by_cases h2 : x.1 = p.L.1 ∨ x.2 = p.L.2
    · rw [if_pos h2] at hg
      have hcond : ¬(x.1 ≤ 0 ∨ x.2 ≤ 0) := by
        rintro (h | h)
        · exact h1 (Or.inl (le_antisymm h hx1))
        · exact h1 (Or.inr (le_antisymm h hy1))
      have hic : IC.uOfXT ⟨⟩ x 0 = 0 := by
        unfold IC.uOfXT
        rw [if_neg hcond]
      rw [hic, ← Option.some.inj hg]
    · rw [if_neg h2] at hg
      exact absurd hg (by simp)

/-- C9 witness: at the outflow boundary point `(1, 1/2)` the Dirichlet
function is the constant-zero function and its value at time `0` equals the
initial condition there. -/
theorem C9_ic_bc_compatibility_witness :
    getDBC ((1 : ℚ), (1 : ℚ)/2) 0 = some (fun _ _ => 0) ∧
    (fun (_ : ℚ × ℚ) (_ : ℚ) => (0 : ℚ)) ((1 : ℚ), (1 : ℚ)/2) 0 =
      IC.uOfXT ⟨⟩ ((1 : ℚ), (1 : ℚ)/2) 0 := by
  have hsome : getDBC ((1 : ℚ), (1 : ℚ)/2) 0 = some (fun _ _ => 0) := by
    unfold getDBC
    rw [if_neg (by norm_num), if_pos (Or.inl (by norm_num [p.L]))]
  exact ⟨hsome,
    C9_ic_bc_compatibility ((1 : ℚ), (1 : ℚ)/2) 0 (fun _ _ => 0)
      (by norm_num) (by norm_num) (by norm_num) (by norm_num)
      (Or.inr (Or.inl rfl)) hsome⟩

/-- C10: the final entry of `n.tnList` is `0.25`, strictly less than the
configured final time `p.T = 1`: the time-stepping configuration covers only
the first quarter of the declared simulation interval. -/
theorem C10_tnList_ends_before_T :
    n.tnList.getLast? = some (1/4) ∧ ((1 : ℚ)/4) < p.T ∧ p.T = 1 := by
  refine ⟨by rw [tnList_eq_explicit]; rfl, by norm_num [p.T], rfl⟩
